import Mathlib

/-!
Verification of the Blackwood Manor adventure-game engine
(`src/adventure_game.py`), shallowly embedded in Lean 4.

The mutable game state (`GState`) mirrors the `Game` object: the player,
the phantom adversary, the per-session seed, safe code and piano flag,
the room table (an insertion-ordered association list, matching a Python
dict), and the bounded undo history.  Machine integers do not occur: all
quantities are small Python ints, modelled as `Int`/`Nat`.  Floating
point occurs only as `int(n * m)` where `m` is exactly 0.5, 1.0 or 1.5
and `n` is a small constant, so the product is exact and the truncation
is modelled precisely by natural division `n * num / 2`.

Python `random` is an external library owned by the session and seeded
once; the engine relies only on it being a deterministic stream.  It is
modelled by `Rng`, a concrete deterministic stream with the same
interface (`randint`, a uniform draw compared against a probability, and
`choice`).
-/

/-- Deterministic random stream; models the session-owned `random`
generator seeded once from the seed string. -/
structure Rng where
  key : Nat
  ctr : Nat
deriving DecidableEq

/-- Derive the stream key from the seed string (stand-in for `random.seed(seed)`). -/
def strSeed (s : String) : Nat :=
  s.foldl (fun a c => a * 31 + c.toNat + 1) 7

def Rng.mkRng (seed : String) : Rng := ⟨strSeed seed, 0⟩

/-- One raw draw from the stream. -/
def Rng.draw (r : Rng) : Nat × Rng :=
  (((r.key + 1) * 2654435761 + r.ctr * 40503) % 4294967296, ⟨r.key, r.ctr + 1⟩)

/-- Models `random.randint(lo, hi)` (inclusive bounds). -/
def Rng.randint (r : Rng) (lo hi : Nat) : Nat × Rng :=
  let (v, r2) := r.draw
  (lo + v % (hi + 1 - lo), r2)

/-- Models `random.random() < pct/100`. -/
def Rng.chance (r : Rng) (pct : Nat) : Bool × Rng :=
  let (v, r2) := r.draw
  (decide (v % 100 < pct), r2)

/-- Models `random.choice(xs)`; callers guard against the empty list. -/
def Rng.choice (r : Rng) (xs : List String) : Option String × Rng :=
  let (v, r2) := r.draw
  (xs.get? (v % xs.length), r2)

/-- Models Python `needle in hay` on strings. -/
def strContains (hay needle : String) : Bool :=
  decide (List.IsInfix needle.toList hay.toList)

/-- Python `s.lower()` (ASCII, as all engine strings are). -/
def pyLower (s : String) : String := String.mk (s.toList.map Char.toLower)

/-- Python `s.upper()`. -/
def pyUpper (s : String) : String := String.mk (s.toList.map Char.toUpper)

/-- Python `s.strip()`. -/
def pyTrim (s : String) : String :=
  let l := s.toList.dropWhile Char.isWhitespace
  String.mk ((l.reverse.dropWhile Char.isWhitespace).reverse)

/-- Replace every non-overlapping occurrence of `pat` left to right
(fuel-structured so it computes by reduction; `fuel` exceeds the text
length and `pat` is nonempty at every use). -/
def replChars (pat rep : List Char) : Nat → List Char → List Char
  | 0, l => l
  | _ + 1, [] => []
  | n + 1, c :: cs =>
    if pat.isPrefixOf (c :: cs) then rep ++ replChars pat rep n (List.drop pat.length (c :: cs))
    else c :: replChars pat rep n cs

/-- Python `s.replace(pat, rep)`. -/
def pyReplace (s pat rep : String) : String :=
  String.mk (replChars pat.toList rep.toList (s.length + 1) s.toList)

/-- Accumulator pass for `pySplit`. -/
def splitWsChars : List Char → List Char → List String
  | [], acc => [String.mk acc.reverse]
  | c :: cs, acc =>
    if c.isWhitespace then String.mk acc.reverse :: splitWsChars cs []
    else splitWsChars cs (c :: acc)

/-- Models Python `text.split()`: split on whitespace, dropping empties. -/
def pySplit (s : String) : List String :=
  (splitWsChars s.toList []).filter (fun w => w ≠ "")

/-- `Item` dataclass. -/
structure Item where
  id : String
  name : String
  desc : String
  takeable : Bool := true
  interactable : Bool := false
  hidden_text : Option String := none
  value : Nat := 0
deriving DecidableEq

/-- `Room` dataclass; `exits` is an insertion-ordered dict. -/
structure Room where
  id : String
  name : String
  desc : String
  exits : List (String × String) := []
  items : List Item := []
  dark : Bool := false
  locked : Bool := false
  key_id : Option String := none
deriving DecidableEq

/-- `Player` dataclass.  `sanity` and `battery` are plain ints (they are
not clamped on every write in the source, so `Int`, not a subtype);
`visited` is a set, serialized as a list, modelled as a duplicate-free
insertion-ordered list. -/
structure Player where
  room_id : String
  inventory : List Item := []
  visited : List String := []
  journal : List String := []
  sanity : Int := 100
  battery : Int := 100
  turns : Nat := 0
  alive : Bool := true
  escaped : Bool := false
  tutorial_done : Bool := false
  difficulty : String := "normal"
deriving DecidableEq

/-- `Phantom` dataclass. -/
structure Phantom where
  room_id : String
  active : Bool := false
  stun_timer : Nat := 0
deriving DecidableEq

/-- Mutable per-room fields captured by `Game._snapshot`. -/
structure SnapRoom where
  locked : Bool
  items : List Item
  exits : List (String × String)
deriving DecidableEq

/-- The structured content of one `Game._snapshot()` JSON blob. -/
structure Snap where
  player : Player
  phantom : Phantom
  seed : String
  safe_code : String
  piano_solved : Bool
  rooms : List (String × SnapRoom)
deriving DecidableEq

/-- The full mutable state owned by one `Game` instance. -/
structure GState where
  seed : String
  rng : Rng
  player : Player
  phantom : Phantom
  safe_code : String
  piano_solved : Bool
  rooms : List (String × Room)
  history : List Snap
deriving DecidableEq

/-- `Game._init_world`: the static map, with the note item carrying the
session safe code in its hidden text. -/
def initRooms (code : String) : List (String × Room) :=
  [ ("gate",
     { id := "gate", name := "Manor Gate",
       desc := "Rain lashes down. A massive gate blocks North. An old [yellow]Iron Key[/] sits in the mud.",
       exits := [("north", "foyer")],
       items := [{ id := "gate_key", name := "Iron Key", desc := "Rusty but solid." }] }),
    ("foyer",
     { id := "foyer", name := "Foyer", desc := "Grand entrance. Dust everywhere.",
       exits := [("north", "library"), ("east", "kitchen"), ("west", "bedroom"), ("south", "gate")],
       items := [{ id := "flashlight", name := "Flashlight", desc := "Rugged and heavy." }],
       locked := true, key_id := some "gate_key" }),
    ("kitchen",
     { id := "kitchen", name := "Kitchen", desc := "Smells of rot.",
       exits := [("west", "foyer"), ("down", "basement")],
       items := [{ id := "note", name := "Crumpled Note", desc := "Hastily scrawled numbers.",
                   interactable := true, hidden_text := some ("Code: " ++ code) },
                 { id := "batteries", name := "Spare Batteries", desc := "Standard voltage.", value := 10 }] }),
    ("library",
     { id := "library", name := "Library", desc := "Quiet rows of books.",
       exits := [("south", "foyer"), ("up", "attic")],
       items := [{ id := "safe", name := "Safe", desc := "Needs a 3-digit code.", takeable := false },
                 { id := "piano", name := "Grand Piano", desc := "Elegant keys covered in dust.", takeable := false }] }),
    ("bedroom",
     { id := "bedroom", name := "Master Bedroom", desc := "Moonlight hits the mirror.",
       exits := [("east", "foyer")],
       items := [{ id := "amulet", name := "Jade Amulet", desc := "Warm to the touch." }] }),
    ("basement",
     { id := "basement", name := "Basement", desc := "Damp and cold.",
       exits := [("up", "kitchen")],
       items := [{ id := "golden_key", name := "Golden Key", desc := "Heavy gold key.", value := 50 }],
       dark := true, locked := true, key_id := some "silver_key" }),
    ("attic",
     { id := "attic", name := "Attic", desc := "Cobwebs and memories.",
       exits := [("down", "library")] }),
    ("garden",
     { id := "garden", name := "Freedom", desc := "Fresh air!",
       exits := [("north", "foyer")],
       locked := true, key_id := some "golden_key" }),
    ("study",
     { id := "study", name := "Secret Study", desc := "A hidden room.",
       exits := [("west", "library")],
       items := [{ id := "sapphire", name := "Star Sapphire", desc := "A brilliant gem worth a fortune.", value := 500 }] }) ]

/-- `Game.__init__` with an explicitly supplied seed: seed the stream,
draw the 3-digit safe code, build the world, mark the gate visited. -/
def initGame (seed difficulty : String) : GState :=
  let r0 := Rng.mkRng seed
  let cd := r0.randint 100 999
  { seed := seed
    rng := cd.2
    player := { room_id := "gate", visited := ["gate"], difficulty := difficulty }
    phantom := { room_id := "attic" }
    safe_code := toString cd.1
    piano_solved := false
    rooms := initRooms (toString cd.1)
    history := [] }

/-- `Game._room`: dict lookup by id (total here via a junk default; the
source raises on an unknown id, which never happens on session states). -/
def getRoom (s : GState) (rid : String) : Room :=
  match s.rooms.find? (fun p => p.1 = rid) with
  | some p => p.2
  | none => { id := "", name := "", desc := "" }

def curRoom (s : GState) : Room := getRoom s s.player.room_id

/-- `Game._has`. -/
def hasItem (s : GState) (iid : String) : Bool :=
  s.player.inventory.any (fun i => i.id = iid)

/-- Numerator of `Game._diff_mult` over the common denominator 2:
story ↦ 0.5, hard ↦ 1.5, otherwise 1.0. -/
def multNum (d : String) : Nat :=
  if d = "story" then 1 else if d = "hard" then 3 else 2

/-- `int(n * self._diff_mult())` for a constant `n`: the float product is
exact (denominator 2) and `int` truncates toward zero, here a floor. -/
def scaled (n : Nat) (d : String) : Nat := n * multNum d / 2

/-- Per-room mutable fields as serialized by `Game._snapshot`. -/
def snapRooms (rooms : List (String × Room)) : List (String × SnapRoom) :=
  rooms.map (fun p => (p.1, ⟨p.2.locked, p.2.items, p.2.exits⟩))

/-- `Game._snapshot`: a structurally complete copy of the mutable state
(the JSON string layer of `json.dumps` is an external-library bijection
and is elided). -/
def snapshot (s : GState) : Snap :=
  { player := s.player
    phantom := s.phantom
    seed := s.seed
    safe_code := s.safe_code
    piano_solved := s.piano_solved
    rooms := snapRooms s.rooms }

/-- A parsed save blob as `Game._restore` consumes it: `json.loads`
output, each required key optionally present.  A missing key makes the
corresponding dict access raise; `piano_solved` is read with
`data.get(..., False)` and never raises. -/
structure RawSnap where
  seed : Option String := none
  safe_code : Option String := none
  piano_solved : Option Bool := none
  player : Option Player := none
  phantom : Option Phantom := none
  rooms : Option (List (String × SnapRoom)) := none
deriving DecidableEq

/-- The raw form of a well-formed snapshot (what `json.loads` returns on
a blob that `Game._snapshot` wrote). -/
def Snap.toRaw (sn : Snap) : RawSnap :=
  { seed := some sn.seed
    safe_code := some sn.safe_code
    piano_solved := some sn.piano_solved
    player := some sn.player
    phantom := some sn.phantom
    rooms := some sn.rooms }

/-- Overwrite one entry of the room dict in place (`self.rooms[rid].x = v`). -/
def mapUpd (rooms : List (String × Room)) (rid : String) (f : Room → Room) :
    List (String × Room) :=
  rooms.map (fun p => if p.1 = rid then (p.1, f p.2) else p)

/-- The per-room restore loop of `Game._restore`: for each serialized
room present in the live dict, overwrite its locked flag, item list and
exits mapping. -/
def restoreRooms (cur : List (String × Room)) (snaps : List (String × SnapRoom)) :
    List (String × Room) :=
  snaps.foldl (fun acc p =>
    mapUpd acc p.1 (fun r => { r with locked := p.2.locked, items := p.2.items, exits := p.2.exits })) cur

/-- `Game._restore` with Python exception semantics: assignments are
applied in source order and a missing key aborts at that point, leaving
the earlier assignments in place.  The `Bool` is `false` when an
exception escaped. -/
def restoreRaw (d : RawSnap) (s : GState) : GState × Bool :=
  match d.seed with
  | none => (s, false)
  | some sd =>
    let s1 := { s with seed := sd }
    match d.safe_code with
    | none => (s1, false)
    | some sc =>
      let s2 := { s1 with safe_code := sc, piano_solved := d.piano_solved.getD false }
      match d.player with
      | none => (s2, false)
      | some p =>
        let s3 := { s2 with player := p }
        match d.phantom with
        | none => (s3, false)
        | some ph =>
          let s4 := { s3 with phantom := ph }
          match d.rooms with
          | none => (s4, false)
          | some rs => ({ s4 with rooms := restoreRooms s4.rooms rs }, true)

/-- `Game._restore` on a well-formed snapshot (always succeeds). -/
def restore (sn : Snap) (s : GState) : GState :=
  (restoreRaw sn.toRaw s).1

/-- `Game._record_action`: push a pre-command snapshot; the history stack
holds at most 10 entries, oldest evicted first. -/
def record_action (s : GState) : GState :=
  let h := s.history ++ [snapshot s]
  { s with history := if 10 < h.length then h.tail else h }

/-- `Game.undo`: pop the most recent snapshot and restore it; with empty
history nothing happens. -/
def undo (s : GState) : GState :=
  match s.history.getLast? with
  | none => s
  | some prev => restore prev { s with history := s.history.dropLast }

/-- The hallucination word-swap table of `Game._process_text`. -/
def swapPairs : List (String × String) :=
  [("dust", "ash"), ("quiet", "whispering"), ("shadows", "monsters"),
   ("smell", "stench"), ("old", "ancient"), ("piano", "coffin"),
   ("battery", "lifeline"), ("light", "hope"), ("safe", "vault")]

/-- Python `w.strip(".,!?:")`. -/
def stripPunct (w : String) : String :=
  let cs := ['.', ',', '!', '?', ':']
  let l := w.toList.dropWhile (fun c => cs.contains c)
  String.mk ((l.reverse.dropWhile (fun c => cs.contains c)).reverse)

/-- Match the capitalization of the original word (`w[0].isupper()`). -/
def capLike (w nw : String) : String :=
  match w.toList with
  | c :: _ => if c.isUpper then nw.capitalize else nw
  | [] => nw

/-- The word loop of `Game._process_text`; a random draw is consumed
exactly for the words whose cleaned form is in the swap table. -/
def procWords (r : Rng) : List String → List String × Rng
  | [] => ([], r)
  | w :: ws =>
    let clean := pyLower (stripPunct w)
    match swapPairs.lookup clean with
    | some nw =>
      let hit := r.chance 40
      let rest := procWords hit.2 ws
      if hit.1 then (("[bold magenta]" ++ capLike w nw ++ "[/]") :: rest.1, rest.2)
      else (w :: rest.1, rest.2)
    | none =>
      let rest := procWords r ws
      (w :: rest.1, rest.2)

/-- `Game._process_text`: identity above the hallucination threshold 60,
otherwise the randomized word substitution (which consumes the stream). -/
def procText (s : GState) (text : String) : String × GState :=
  if s.player.sanity > 60 then (text, s)
  else
    let ws := procWords s.rng (pySplit text)
    (String.intercalate " " ws.1, { s with rng := ws.2 })

/-- `Game._update_status`: per-move sanity drain; battery drains only
when a flashlight is carried, faster in a dark room; battery (not
sanity) is clamped below at 0. -/
def updateStatus (s : GState) : GState :=
  let m := s.player.difficulty
  let s1 := { s with player := { s.player with sanity := s.player.sanity - (scaled 1 m : Nat) } }
  if (curRoom s1).dark && hasItem s1 "flashlight" then
    { s1 with player := { s1.player with battery := max 0 (s1.player.battery - (scaled 5 m : Nat)) } }
  else if hasItem s1 "flashlight" then
    { s1 with player := { s1.player with battery := max 0 (s1.player.battery - (scaled 2 m : Nat)) } }
  else s1

/-- `Game._update_phantom`: inert while `stun_timer > turns` (strict);
activation once `turns > 8` with the tutorial done; unclamped sanity
damage `int(15 * mult)` when co-located; then a 45 percent chance to
relocate to a uniformly drawn exit target of its current room. -/
def updatePhantom (s : GState) : GState :=
  if s.phantom.stun_timer > s.player.turns then s
  else
    let s1 :=
      if 8 < s.player.turns && !s.phantom.active && s.player.tutorial_done then
        { s with phantom := { s.phantom with active := true } }
      else s
    if !s1.phantom.active then s1
    else
      let s2 :=
        if s1.phantom.room_id = s1.player.room_id then
          { s1 with player := { s1.player with sanity := s1.player.sanity - (scaled 15 s1.player.difficulty : Nat) } }
        else s1
      let mv := s2.rng.chance 45
      let s3 := { s2 with rng := mv.2 }
      if mv.1 then
        let pr := getRoom s3 s3.phantom.room_id
        if pr.exits.isEmpty then s3
        else
          let c := s3.rng.choice (pr.exits.map (fun e => e.2))
          { s3 with rng := c.2, phantom := { s3.phantom with room_id := c.1.getD s3.phantom.room_id } }
      else s3

/-- Python set `add` on the visited list. -/
def addVisited (v : List String) (x : String) : List String :=
  if v.contains x then v else v ++ [x]

/-- The tail of `Game.move` after the direction and lock checks pass:
enter the room, count the turn, drain resources, run the phantom tick,
then the fatal-darkness check. -/
def moveEnter (destId : String) (s : GState) : GState :=
  let p := s.player
  let s1 := { s with player :=
    { p with room_id := destId, visited := addVisited p.visited destId, turns := p.turns + 1 } }
  let s2 := updateStatus s1
  let s3 := updatePhantom s2
  let dest := getRoom s3 destId
  if dest.dark then
    if !hasItem s3 "flashlight" then
      { s3 with player := { s3.player with alive := false } }
    else if s3.player.battery ≤ 0 then
      { s3 with player := { s3.player with alive := false } }
    else s3
  else s3

/-- `Game.move`. -/
def move (direction : String) (s : GState) : GState :=
  let s0 := record_action s
  let curr := curRoom s0
  match List.lookup direction curr.exits with
  | none => s0
  | some destId =>
    let dest := getRoom s0 destId
    if dest.locked then
      match dest.key_id with
      | some k =>
        if k ≠ "" && hasItem s0 k then
          let s1 := { s0 with rooms := mapUpd s0.rooms destId (fun r => { r with locked := false }) }
          let s2 :=
            if dest.id = "foyer" then
              { s1 with player := { s1.player with tutorial_done := true } }
            else s1
          moveEnter destId s2
        else s0
      | none => s0
    else moveEnter destId s0

/-- Outcome tag of `Game.take` (which of the three prints fired). -/
inductive TakeMsg
  | cantTake
  | invFull
  | taken
deriving DecidableEq

/-- `Game.take` with its outcome: find a takeable item by lowercased
name or id, refuse at the 5-slot capacity, otherwise transfer it from
the room to the inventory. -/
def takeM (target0 : String) (s : GState) : GState × TakeMsg :=
  let s0 := record_action s
  let target := pyReplace target0 "up " ""
  let room := curRoom s0
  match room.items.find? (fun i => pyLower i.name = target || i.id = target) with
  | none => (s0, .cantTake)
  | some item =>
    if !item.takeable then (s0, .cantTake)
    else if 5 ≤ s0.player.inventory.length then (s0, .invFull)
    else
      ({ s0 with
          rooms := mapUpd s0.rooms s0.player.room_id (fun r => { r with items := r.items.erase item }),
          player := { s0.player with inventory := s0.player.inventory ++ [item] } }, .taken)

def take (t : String) (s : GState) : GState := (takeM t s).1

/-- `Game.drop`. -/
def drop (target : String) (s : GState) : GState :=
  let s0 := record_action s
  match s0.player.inventory.find? (fun i => pyLower i.name = target) with
  | some found =>
    { s0 with
        player := { s0.player with inventory := s0.player.inventory.erase found },
        rooms := mapUpd s0.rooms s0.player.room_id (fun r => { r with items := r.items ++ [found] }) }
  | none => s0

/-- `Game.use`: substring match on the argument; batteries restore
battery to at most 100 and are consumed, the amulet restores sanity to
at most 100 and is consumed. -/
def use (target : String) (s : GState) : GState :=
  let s0 := record_action s
  if strContains target "battery" || strContains target "batteries" then
    match s0.player.inventory.find? (fun i => i.id = "batteries") with
    | some bat =>
      { s0 with player := { s0.player with
          inventory := s0.player.inventory.erase bat,
          battery := min 100 (s0.player.battery + 40) } }
    | none => s0
  else if strContains target "amulet" then
    match s0.player.inventory.find? (fun i => i.id = "amulet") with
    | some amu =>
      { s0 with player := { s0.player with
          inventory := s0.player.inventory.erase amu,
          sanity := min 100 (s0.player.sanity + 25) } }
    | none => s0
  else s0

/-- `Game.unlock`: only the library safe is unlockable; the code is read
from a secondary prompt (the head of the input stream).  The returned
`Bool` is `false` when the prompt hits end of input and the exception
escapes.  A correct code reveals a fresh silver key in the room; a wrong
one costs `int(3 * mult)` sanity, unclamped. -/
def unlockS (target : String) (stream : List String) (s : GState) :
    GState × List String × Bool :=
  let s0 := record_action s
  if strContains target "safe" && s0.player.room_id = "library" then
    match stream with
    | [] => (s0, [], false)
    | code :: rest =>
      if code = s0.safe_code then
        ({ s0 with rooms := mapUpd s0.rooms s0.player.room_id (fun r =>
            { r with items := r.items ++ [{ id := "silver_key", name := "Silver Key", desc := "Small key." }] }) },
         rest, true)
      else
        ({ s0 with player := { s0.player with
            sanity := s0.player.sanity - (scaled 3 s0.player.difficulty : Nat) } }, rest, true)
  else (s0, stream, true)

/-- `Game.play_piano`: in the library and not yet solved, read a note
sequence from the secondary prompt; the solution adds the east exit to
the study and sets the solved flag; a wrong sequence costs 2 sanity. -/
def dictSet (d : List (String × String)) (k v : String) : List (String × String) :=
  if d.any (fun p => p.1 = k) then d.map (fun p => if p.1 = k then (k, v) else p)
  else d ++ [(k, v)]

def play_piano (target : String) (stream : List String) (s : GState) :
    GState × List String × Bool :=
  let s0 := record_action s
  if strContains target "piano" && s0.player.room_id = "library" then
    if s0.piano_solved then (s0, stream, true)
    else
      match stream with
      | [] => (s0, [], false)
      | notesRaw :: rest =>
        let notes := pyUpper (pyTrim notesRaw)
        if notes = "DAD" || notes = "D-A-D" then
          ({ s0 with
              rooms := mapUpd s0.rooms "library" (fun r => { r with exits := dictSet r.exits "east" "study" }),
              piano_solved := true }, rest, true)
        else
          ({ s0 with player := { s0.player with sanity := s0.player.sanity - 2 } }, rest, true)
  else (s0, stream, true)

/-- `Game.flash`: needs the flashlight and `int(20 * mult)` battery;
on a hit (co-located phantom) sets `stun_timer = turns + 3` and force-
relocates the phantom to a random exit target. -/
def flash (s : GState) : GState :=
  let s0 := record_action s
  if !hasItem s0 "flashlight" then s0
  else
    let cost : Int := (scaled 20 s0.player.difficulty : Nat)
    if s0.player.battery < cost then s0
    else
      let s1 := { s0 with player := { s0.player with battery := s0.player.battery - cost } }
      if s1.phantom.room_id = s1.player.room_id then
        let s2 := { s1 with phantom := { s1.phantom with stun_timer := s1.player.turns + 3 } }
        let pr := getRoom s2 s2.phantom.room_id
        if pr.exits.isEmpty then s2
        else
          let c := s2.rng.choice (pr.exits.map (fun e => e.2))
          { s2 with rng := c.2, phantom := { s2.phantom with room_id := c.1.getD s2.phantom.room_id } }
      else s1

/-- The three proximity tiers reported by `Game.listen`. -/
inductive Tier
  | here
  | near
  | far
deriving DecidableEq

/-- The classification computed by `Game.listen`: co-located, adjacent
(phantom room among the current exits targets), or distant. -/
def listenTier (s : GState) : Tier :=
  let curr := curRoom s
  if s.phantom.room_id = curr.id then .here
  else if (curr.exits.map (fun e => e.2)).contains s.phantom.room_id then .near
  else .far

/-- `Game.listen`: records a history snapshot, then only prints. -/
def listen (s : GState) : GState := record_action s

/-- `Game.hint`: costs `int(5 * mult)` sanity, unclamped; the tip text
is a pure read of the state. -/
def hint (s : GState) : GState :=
  let s0 := record_action s
  { s0 with player := { s0.player with sanity := s0.player.sanity - (scaled 5 s0.player.difficulty : Nat) } }

/-- `Game.look`: inspect an item from inventory or room by lowercased
name or id; its description runs through the hallucination filter; an
interactable item with hidden text appends `"name: text"` to the journal
when the raw hidden text is not a journal member (the guard of the
source, compared verbatim). -/
def look (target : String) (s : GState) : GState :=
  if target = "" || target = "room" || target = "around" then s
  else
    let all := s.player.inventory ++ (curRoom s).items
    match all.find? (fun i => pyLower i.name = target || i.id = target) with
    | none => s
    | some item =>
      let pt := procText s item.desc
      let s1 := pt.2
      match item.hidden_text with
      | some ht =>
        if item.interactable && ht ≠ "" then
          if s1.player.journal.contains ht then s1
          else { s1 with player := { s1.player with journal := s1.player.journal ++ [item.name ++ ": " ++ ht] } }
        else s1
      | none => s1

/-- The state-mutating commands of the engine (each pushes a snapshot
before acting); `unlock` and `play` carry the line answering their
secondary prompt. -/
inductive Cmd
  | move (dir : String)
  | take (target : String)
  | drop (target : String)
  | use (target : String)
  | unlock (target code : String)
  | play (target notes : String)
  | flash
  | hint
  | listen
deriving DecidableEq

/-- Run one mutating command (the state part of its handler). -/
def execCmd : Cmd → GState → GState
  | .move d, s => move d s
  | .take t, s => take t s
  | .drop t, s => drop t s
  | .use t, s => use t s
  | .unlock t c, s => (unlockS t [c] s).1
  | .play t n, s => (play_piano t [n] s).1
  | .flash, s => flash s
  | .hint, s => hint s
  | .listen, s => listen s

/-- A command sequence applied from a state. -/
def applyOps (ops : List Cmd) (s : GState) : GState :=
  ops.foldl (fun g c => execCmd c g) s

/-- The content of the `save.json` slot as `Game.load_state` sees it:
absent (`none` at the call site), not JSON at all, or parsed JSON. -/
inductive Blob
  | notJson
  | json (d : RawSnap)
deriving DecidableEq

/-- `Game.save_state` writes the current snapshot to the slot. -/
def saveBlob (s : GState) : Blob := Blob.json (snapshot s).toRaw

/-- `Game.load_state`: an absent file is skipped silently; otherwise the
blob is parsed and restored with Python exception semantics (`false`
means an exception escaped uncaught). -/
def load_state (slot : Option Blob) (s : GState) : GState × Bool :=
  match slot with
  | none => (s, true)
  | some Blob.notJson => (s, false)
  | some (Blob.json d) => restoreRaw d s

/-- The command table keys of `Game.__init__`, in insertion order. -/
def keyList : List String :=
  ["go", "move", "walk", "look", "inspect", "read", "take", "get", "grab",
   "drop", "use", "inv", "i", "inventory", "map", "journal", "j",
   "save", "load", "help", "unlock", "play", "undo", "hint",
   "listen", "flash", "mute", "unmute"]

/-- Engine-external session pieces threaded by the game loop: the game
state, the save slot, and whether an uncaught exception ended the run. -/
structure SessionSt where
  g : GState
  slot : Option Blob
  crashed : Bool
deriving DecidableEq

/-- Dispatch one resolved command key to its handler, consuming further
input lines for secondary prompts.  Keys with display-only handlers
leave the state unchanged. -/
def execKey (k arg : String) (stream : List String) (st : SessionSt) :
    SessionSt × List String :=
  if k = "go" || k = "move" || k = "walk" then ({ st with g := move arg st.g }, stream)
  else if k = "look" || k = "inspect" || k = "read" then ({ st with g := look arg st.g }, stream)
  else if k = "take" || k = "get" || k = "grab" then ({ st with g := take arg st.g }, stream)
  else if k = "drop" then ({ st with g := drop arg st.g }, stream)
  else if k = "use" then ({ st with g := use arg st.g }, stream)
  else if k = "save" then ({ st with slot := some (saveBlob st.g) }, stream)
  else if k = "load" then
    let r := load_state st.slot st.g
    ({ st with g := r.1, crashed := !r.2 }, stream)
  else if k = "unlock" then
    let r := unlockS arg stream st.g
    ({ st with g := r.1, crashed := !r.2.2 }, r.2.1)
  else if k = "play" then
    let r := play_piano arg stream st.g
    ({ st with g := r.1, crashed := !r.2.2 }, r.2.1)
  else if k = "undo" then ({ st with g := undo st.g }, stream)
  else if k = "hint" then ({ st with g := hint st.g }, stream)
  else if k = "listen" then ({ st with g := listen st.g }, stream)
  else if k = "flash" then ({ st with g := flash st.g }, stream)
  else (st, stream)

/-- How the loop resolved one input line. -/
inductive DispatchTag
  | noInput
  | exact (k : String)
  | fuzzy (k : String)
  | unknown
deriving DecidableEq

/-- Tokenize one raw input line as the loop does: strip, lowercase,
split; the leading token is the command, the rest rejoins as argument.
`none` for a blank line. -/
def parseLine (line : String) : Option (String × String) :=
  let inp := pyLower (pyTrim line)
  if inp = "" then none
  else
    let parts := pySplit inp
    some (parts.headD "", String.intercalate " " parts.tail)

/-- The dispatch block of `Game.start`: exact table hit first; on a miss
the fuzzy scorer picks the best key and its 0-100 score, accepted from
confidence 80; below that nothing runs. -/
def dispatchExec (scorer : String → List String → String × Nat)
    (line : String) (stream : List String) (st : SessionSt) :
    SessionSt × List String × DispatchTag :=
  match parseLine line with
  | none => (st, stream, .noInput)
  | some (cmd, arg) =>
    if keyList.contains cmd then
      let r := execKey cmd arg stream st
      (r.1, r.2, .exact cmd)
    else
      let bs := scorer cmd keyList
      if 80 ≤ bs.2 then
        let r := execKey bs.1 arg stream st
        (r.1, r.2, .fuzzy bs.1)
      else (st, stream, .unknown)

/-- The render step at the top of each loop iteration: unless the room
is pitch black, the room description passes through the hallucination
filter (consuming the random stream at low sanity). -/
def renderTick (g : GState) : GState :=
  let room := getRoom g g.player.room_id
  if room.dark && !hasItem g "flashlight" then g
  else (procText g room.desc).2

/-- The post-command mind-shatters check of the loop. -/
def deathCheck (st : SessionSt) : SessionSt :=
  if st.g.player.sanity ≤ 0 then
    { st with g := { st.g with player := { st.g.player with alive := false } } }
  else st

/-- Big-step semantics of the `Game.start` loop on a finite input
script, as a rule system: from a session state and remaining script it
yields the per-iteration phantom room-id trace and the final state.
Iterations stop on a crash, on death/escape, on reaching the garden, or
on end of input. -/
inductive RunR (scorer : String → List String → String × Nat) :
    SessionSt → List String → List String → SessionSt → Prop
  | crash (st : SessionSt) (script : List String) :
      st.crashed = true → RunR scorer st script [] st
  | halt (st : SessionSt) (script : List String) :
      st.crashed = false →
      (st.g.player.alive && !st.g.player.escaped) = false →
      RunR scorer st script [] st
  | escape (st : SessionSt) (script : List String) :
      st.crashed = false →
      (st.g.player.alive && !st.g.player.escaped) = true →
      st.g.player.room_id = "garden" →
      RunR scorer st script []
        { st with g := { st.g with player := { st.g.player with escaped := true } } }
  | eof (st : SessionSt) :
      st.crashed = false →
      (st.g.player.alive && !st.g.player.escaped) = true →
      st.g.player.room_id ≠ "garden" →
      RunR scorer st [] [] { st with g := renderTick st.g }
  | step (st : SessionSt) (line : String) (rest : List String)
      (st2 : SessionSt) (rest2 : List String) (tag : DispatchTag)
      (st3 : SessionSt) (tr : List String) (fin : SessionSt) :
      st.crashed = false →
      (st.g.player.alive && !st.g.player.escaped) = true →
      st.g.player.room_id ≠ "garden" →
      dispatchExec scorer line rest { st with g := renderTick st.g } = (st2, rest2, tag) →
      st3 = (if st2.crashed || tag = DispatchTag.noInput then st2 else deathCheck st2) →
      RunR scorer st3 rest2 tr fin →
      RunR scorer st (line :: rest) (st3.g.phantom.room_id :: tr) fin

/-! ### Verification-layer definitions -/

/-- The immutable skeleton of the room table: keys and the per-room
fields never re-serialized by a snapshot (id, name, desc, dark, key_id). -/
def skel (rooms : List (String × Room)) :
    List (String × String × String × String × Bool × Option String) :=
  rooms.map (fun p => (p.1, p.2.id, p.2.name, p.2.desc, p.2.dark, p.2.key_id))
/-- The mutable projection of the game state named by the undo claim:
player fields, phantom fields, session seed, safe code and piano flag,
and every room entry (its locked flag, item list, and exits mapping
live inside the `Room` values). -/
structure MutState where
  player : Player
  phantom : Phantom
  seed : String
  safe_code : String
  piano_solved : Bool
  rooms : List (String × Room)
deriving DecidableEq

def mutOf (s : GState) : MutState :=
  ⟨s.player, s.phantom, s.seed, s.safe_code, s.piano_solved, s.rooms⟩
/-- The player-level invariant that actually holds on the code: battery
clamped to [0,100], sanity never above 100, inventory within capacity. -/
def GoodP (p : Player) : Prop :=
  0 ≤ p.battery ∧ p.battery ≤ 100 ∧ p.sanity ≤ 100 ∧ p.inventory.length ≤ 5

/-- The session-level strengthening: every snapshot on the undo stack
also satisfies the player invariant. -/
def GoodS (s : GState) : Prop :=
  GoodP s.player ∧ ∀ sn ∈ s.history, GoodP sn.player
/-- The states a session can reach from a fresh game by running
mutating commands and undos. -/
inductive Reach (seed difficulty : String) : GState → Prop
  | init : Reach seed difficulty (initGame seed difficulty)
  | cmd (s : GState) (c : Cmd) : Reach seed difficulty s →
      Reach seed difficulty (execCmd c s)
  | undoStep (s : GState) : Reach seed difficulty s →
      Reach seed difficulty (undo s)
/-! ### Concrete states used by counterexamples and witnesses -/

/-- A session state in the attic at turn 9 whose phantom is active and
whose stun expiry equals the current turn counter. -/
def stunBoundarySt : GState :=
  { seed := "4"
    rng := { key := 77, ctr := 1 }
    player := { room_id := "attic", visited := ["gate", "attic"], turns := 9,
                tutorial_done := true, difficulty := "normal" }
    phantom := { room_id := "attic", active := true, stun_timer := 9 }
    safe_code := "321"
    piano_solved := false
    rooms := initRooms "321"
    history := [] }

/-- Like `stunBoundarySt` but unstunned, on story difficulty. -/
def storyAttackSt : GState :=
  { seed := "5"
    rng := { key := 90, ctr := 2 }
    player := { room_id := "attic", visited := ["gate", "attic"], turns := 9,
                tutorial_done := true, difficulty := "story" }
    phantom := { room_id := "attic", active := true, stun_timer := 0 }
    safe_code := "473"
    piano_solved := false
    rooms := initRooms "473"
    history := [] }
/-- A copy of `stunBoundarySt` whose stun expiry is strictly in the
future. -/
def stunnedSt : GState :=
  { seed := "4"
    rng := { key := 77, ctr := 1 }
    player := { room_id := "attic", visited := ["gate", "attic"], turns := 9,
                tutorial_done := true, difficulty := "normal" }
    phantom := { room_id := "attic", active := true, stun_timer := 10 }
    safe_code := "321"
    piano_solved := false
    rooms := initRooms "321"
    history := [] }
/-- A session state whose inventory is at the 5-item capacity, standing
at the gate next to the takeable iron key. -/
def fullInvSt : GState :=
  { seed := "7"
    rng := { key := 3, ctr := 5 }
    player := { room_id := "gate", visited := ["gate"], difficulty := "normal",
                inventory := [{ id := "i1", name := "A", desc := "a" },
                              { id := "i2", name := "B", desc := "b" },
                              { id := "i3", name := "C", desc := "c" },
                              { id := "i4", name := "D", desc := "d" },
                              { id := "i5", name := "E", desc := "e" }] }
    phantom := { room_id := "attic" }
    safe_code := "222"
    piano_solved := false
    rooms := initRooms "222"
    history := [] }
/-- A session state in the library with the piano puzzle unsolved. -/
def libSt : GState :=
  { seed := "2"
    rng := { key := 11, ctr := 4 }
    player := { room_id := "library", visited := ["gate", "foyer", "library"], turns := 3,
                tutorial_done := true, difficulty := "normal" }
    phantom := { room_id := "attic" }
    safe_code := "555"
    piano_solved := false
    rooms := initRooms "555"
    history := [] }
/-- The parsed form of a save blob that holds a seed entry but no
safe-code entry. -/
def badRaw : RawSnap := { seed := some "tampered" }
/-- A session state in the kitchen, the crumpled note still in the room
and the journal empty. -/
def kitchenSt : GState :=
  { seed := "1"
    rng := { key := 40, ctr := 2 }
    player := { room_id := "kitchen", visited := ["gate", "foyer", "kitchen"], turns := 2,
                tutorial_done := true, difficulty := "normal", sanity := 98,
                inventory := [{ id := "gate_key", name := "Iron Key", desc := "Rusty but solid." }] }
    phantom := { room_id := "attic" }
    safe_code := "308"
    piano_solved := false
    rooms := initRooms "308"
    history := [] }
/-- The session state dispatch witnesses run from. -/
def dispatchSt : SessionSt := ⟨initGame "3" "normal", none, false⟩

set_option maxRecDepth 16000

/-! ### Snapshot and restore round-trip infrastructure -/

theorem keys_of_skel {a b : List (String × Room)} (h : skel a = skel b) :
    a.map Prod.fst = b.map Prod.fst := by
  have := congrArg (List.map (fun q => q.1)) h
  simpa [skel, Function.comp] using this

theorem skel_mapUpd (rooms : List (String × Room)) (rid : String) (f : Room → Room)
    (hf : ∀ r, (f r).id = r.id ∧ (f r).name = r.name ∧ (f r).desc = r.desc ∧
               (f r).dark = r.dark ∧ (f r).key_id = r.key_id) :
    skel (mapUpd rooms rid f) = skel rooms := by
  induction rooms with
  | nil => rfl
  | cons p t ih =>
    simp only [mapUpd, skel, List.map_cons] at *
    by_cases hp : p.1 = rid
    · obtain ⟨h1, h2, h3, h4, h5⟩ := hf p.2
      simp [hp, h1, h2, h3, h4, h5, ih]
    · simp [hp, ih]

theorem mapUpd_of_not_mem (rooms : List (String × Room)) (rid : String) (f : Room → Room)
    (h : rid ∉ rooms.map Prod.fst) : mapUpd rooms rid f = rooms := by
  induction rooms with
  | nil => rfl
  | cons p t ih =>
    simp only [List.map_cons, List.mem_cons] at h
    push_neg at h
    simp only [mapUpd, List.map_cons]
    rw [if_neg (by simpa [eq_comm] using h.1)]
    simpa [mapUpd] using ih h.2

theorem restoreRooms_cons_of_not_mem (k : String) (r : Room)
    (cur : List (String × Room)) (snaps : List (String × SnapRoom))
    (h : k ∉ snaps.map Prod.fst) :
    restoreRooms ((k, r) :: cur) snaps = (k, r) :: restoreRooms cur snaps := by
  induction snaps generalizing cur with
  | nil => rfl
  | cons q t ih =>
    simp only [List.map_cons, List.mem_cons] at h
    push_neg at h
    simp only [restoreRooms, List.foldl_cons, mapUpd, List.map_cons]
    rw [if_neg h.1]
    exact ih _ h.2

/-- Restoring the mutable fields recorded from `orig` into any room
table with the same skeleton reproduces `orig` exactly. -/
theorem restoreRooms_snapRooms (orig : List (String × Room)) :
    ∀ cur : List (String × Room), skel cur = skel orig →
    (orig.map Prod.fst).Nodup → restoreRooms cur (snapRooms orig) = orig := by
  induction orig with
  | nil =>
    intro cur hsk _
    have hnil : cur = [] := by
      have := congrArg List.length hsk
      simpa [skel] using this
    simp [hnil, restoreRooms, snapRooms]
  | cons p t ih =>
    obtain ⟨k1, r1⟩ := p
    intro cur hsk hnd
    match cur with
    | [] => simp [skel] at hsk
    | (k2, c) :: cur' =>
      simp only [skel, List.map_cons, List.cons.injEq, Prod.mk.injEq] at hsk
      obtain ⟨⟨hk, hid, hname, hdesc, hdark, hkey⟩, htail⟩ := hsk
      simp only [List.map_cons, List.nodup_cons] at hnd
      obtain ⟨hpnot, hndt⟩ := hnd
      subst hk
      have step1 : restoreRooms ((k2, c) :: cur') (snapRooms ((k2, r1) :: t)) =
          restoreRooms (mapUpd ((k2, c) :: cur') k2
            (fun r => { r with locked := r1.locked, items := r1.items, exits := r1.exits }))
            (snapRooms t) := rfl
      rw [step1]
      have hkeys : cur'.map Prod.fst = t.map Prod.fst := by
        have := congrArg (List.map (fun q => q.1)) htail
        simpa [Function.comp] using this
      have hfc : ({ c with locked := r1.locked, items := r1.items, exits := r1.exits } : Room) = r1 := by
        cases c
        cases r1
        simp_all
      have hrest : mapUpd cur' k2
          (fun r => { r with locked := r1.locked, items := r1.items, exits := r1.exits }) = cur' := by
        apply mapUpd_of_not_mem
        rw [hkeys]
        exact hpnot
      have hhead : mapUpd ((k2, c) :: cur') k2
          (fun r => { r with locked := r1.locked, items := r1.items, exits := r1.exits }) =
          (k2, r1) :: cur' := by
        simp only [mapUpd, List.map_cons, if_pos]
        rw [List.cons_eq_cons]
        constructor
        · simpa using hfc
        · simpa [mapUpd] using hrest
      rw [hhead]
      rw [restoreRooms_cons_of_not_mem _ _ _ _ (by
        have hsnap : (snapRooms t).map Prod.fst = t.map Prod.fst := by
          simp [snapRooms, Function.comp]
        rw [hsnap]
        exact hpnot)]
      rw [ih cur' htail hndt]

/-! ### Frame lemmas: what each engine step leaves untouched -/

theorem record_action_rooms (s : GState) : (record_action s).rooms = s.rooms := rfl

theorem record_action_player (s : GState) : (record_action s).player = s.player := rfl

theorem record_action_getLast (s : GState) :
    (record_action s).history.getLast? = some (snapshot s) := by
  simp only [record_action]
  by_cases h : 10 < (s.history ++ [snapshot s]).length
  · rw [if_pos h]
    match hh : s.history with
    | [] => rw [hh] at h; simp at h
    | a :: t => simp [List.getLast?_concat]
  · rw [if_neg h]
    exact List.getLast?_concat _

theorem updateStatus_history (s : GState) : (updateStatus s).history = s.history := by
  simp only [updateStatus]
  repeat' split
  all_goals rfl

theorem updateStatus_rooms (s : GState) : (updateStatus s).rooms = s.rooms := by
  simp only [updateStatus]
  repeat' split
  all_goals rfl

theorem updatePhantom_history (s : GState) : (updatePhantom s).history = s.history := by
  simp only [updatePhantom]
  repeat' split
  all_goals rfl

theorem updatePhantom_rooms (s : GState) : (updatePhantom s).rooms = s.rooms := by
  simp only [updatePhantom]
  repeat' split
  all_goals rfl

theorem moveEnter_history (destId : String) (s : GState) :
    (moveEnter destId s).history = s.history := by
  simp only [moveEnter]
  repeat' split
  all_goals simp [updatePhantom_history, updateStatus_history]

theorem moveEnter_rooms (destId : String) (s : GState) :
    (moveEnter destId s).rooms = s.rooms := by
  simp only [moveEnter]
  repeat' split
  all_goals simp [updatePhantom_rooms, updateStatus_rooms]

theorem skel_locked_upd (rooms : List (String × Room)) (rid : String) :
    skel (mapUpd rooms rid (fun r => { r with locked := false })) = skel rooms :=
  skel_mapUpd _ _ _ (fun _ => ⟨rfl, rfl, rfl, rfl, rfl⟩)

theorem skel_erase_upd (rooms : List (String × Room)) (rid : String) (item : Item) :
    skel (mapUpd rooms rid (fun r => { r with items := r.items.erase item })) = skel rooms :=
  skel_mapUpd _ _ _ (fun _ => ⟨rfl, rfl, rfl, rfl, rfl⟩)

theorem skel_append_upd (rooms : List (String × Room)) (rid : String) (its : List Item) :
    skel (mapUpd rooms rid (fun r => { r with items := r.items ++ its })) = skel rooms :=
  skel_mapUpd _ _ _ (fun _ => ⟨rfl, rfl, rfl, rfl, rfl⟩)

theorem skel_exits_upd (rooms : List (String × Room)) (rid k v : String) :
    skel (mapUpd rooms rid (fun r => { r with exits := dictSet r.exits k v })) = skel rooms :=
  skel_mapUpd _ _ _ (fun _ => ⟨rfl, rfl, rfl, rfl, rfl⟩)

theorem move_hist (d : String) (s : GState) :
    (move d s).history = (record_action s).history := by
  simp only [move]
  repeat' split
  all_goals simp [moveEnter_history]

theorem move_skel (d : String) (s : GState) :
    skel (move d s).rooms = skel s.rooms := by
  simp only [move]
  repeat' split
  all_goals simp [moveEnter_rooms, skel_locked_upd, record_action_rooms]

theorem takeM_hist (t : String) (s : GState) :
    (takeM t s).1.history = (record_action s).history := by
  simp only [takeM]
  repeat' split
  all_goals rfl

theorem takeM_skel (t : String) (s : GState) :
    skel (takeM t s).1.rooms = skel s.rooms := by
  simp only [takeM]
  repeat' split
  all_goals simp [skel_erase_upd, record_action_rooms]

theorem drop_hist (t : String) (s : GState) :
    (drop t s).history = (record_action s).history := by
  simp only [drop]
  repeat' split
  all_goals rfl

theorem drop_skel (t : String) (s : GState) :
    skel (drop t s).rooms = skel s.rooms := by
  simp only [drop]
  repeat' split
  all_goals simp [skel_append_upd, record_action_rooms]

theorem use_hist (t : String) (s : GState) :
    (use t s).history = (record_action s).history := by
  simp only [use]
  repeat' split
  all_goals rfl

theorem use_skel (t : String) (s : GState) :
    skel (use t s).rooms = skel s.rooms := by
  simp only [use]
  repeat' split
  all_goals rfl

theorem unlockS_hist (t : String) (stream : List String) (s : GState) :
    (unlockS t stream s).1.history = (record_action s).history := by
  simp only [unlockS]
  repeat' split
  all_goals rfl

theorem unlockS_skel (t : String) (stream : List String) (s : GState) :
    skel (unlockS t stream s).1.rooms = skel s.rooms := by
  simp only [unlockS]
  repeat' split
  all_goals simp [skel_append_upd, record_action_rooms]

theorem play_piano_hist (t : String) (stream : List String) (s : GState) :
    (play_piano t stream s).1.history = (record_action s).history := by
  simp only [play_piano]
  repeat' split
  all_goals rfl

theorem play_piano_skel (t : String) (stream : List String) (s : GState) :
    skel (play_piano t stream s).1.rooms = skel s.rooms := by
  simp only [play_piano]
  repeat' split
  all_goals simp [skel_exits_upd, record_action_rooms]

theorem flash_hist (s : GState) :
    (flash s).history = (record_action s).history := by
  simp only [flash]
  repeat' split
  all_goals rfl

theorem flash_skel (s : GState) :
    skel (flash s).rooms = skel s.rooms := by
  simp only [flash]
  repeat' split
  all_goals rfl

theorem hint_hist (s : GState) :
    (hint s).history = (record_action s).history := rfl

theorem hint_skel (s : GState) :
    skel (hint s).rooms = skel s.rooms := rfl

/-- Every mutating command pushes exactly the pre-command snapshot onto
the history (and nothing later touches it). -/
theorem execCmd_hist (c : Cmd) (s : GState) :
    (execCmd c s).history = (record_action s).history := by
  cases c with
  | move d => exact move_hist d s
  | take t => exact takeM_hist t s
  | drop t => exact drop_hist t s
  | use t => exact use_hist t s
  | unlock t c => exact unlockS_hist t [c] s
  | play t n => exact play_piano_hist t [n] s
  | flash => exact flash_hist s
  | hint => exact hint_hist s
  | listen => rfl

/-- No mutating command changes the immutable room skeleton. -/
theorem execCmd_skel (c : Cmd) (s : GState) :
    skel (execCmd c s).rooms = skel s.rooms := by
  cases c with
  | move d => exact move_skel d s
  | take t => exact takeM_skel t s
  | drop t => exact drop_skel t s
  | use t => exact use_skel t s
  | unlock t c => exact unlockS_skel t [c] s
  | play t n => exact play_piano_skel t [n] s
  | flash => exact flash_skel s
  | hint => exact hint_skel s
  | listen => rfl

/-- Restoring a well-formed snapshot overwrites player, phantom, the
session fields, and the mutable room fields, and succeeds. -/
theorem restore_def (sn : Snap) (s : GState) :
    restore sn s =
      { s with
          seed := sn.seed
          safe_code := sn.safe_code
          piano_solved := sn.piano_solved
          player := sn.player
          phantom := sn.phantom
          rooms := restoreRooms s.rooms sn.rooms } := rfl

/-- C1: for every state-mutating command (move, take, drop, use, unlock,
play, flash, hint, listen), running the command and then `undo` restores
the full mutable state — player fields, phantom fields, session
seed/safe-code/piano-solved flag, and every room entry including its
locked flag, item list and exits mapping (a dynamically added exit
included) — to exactly its pre-command value.  The room table of a live
session has pairwise distinct keys (it is a Python dict). -/
theorem undo_restores_mutable_state (c : Cmd) (s : GState)
    (h : (s.rooms.map Prod.fst).Nodup) :
    mutOf (undo (execCmd c s)) = mutOf s := by
  have hh := execCmd_hist c s
  have hs := execCmd_skel c s
  unfold undo
  rw [hh, record_action_getLast]
  have hrooms : restoreRooms (execCmd c s).rooms (snapshot s).rooms = s.rooms :=
    restoreRooms_snapRooms s.rooms (execCmd c s).rooms hs h
  simp [restore_def, mutOf, snapshot]
  simpa [snapshot] using hrooms

/-! ### Resource and inventory invariants -/

theorem updateStatus_good (s : GState) (h : GoodP s.player) :
    GoodP (updateStatus s).player := by
  obtain ⟨h1, h2, h3, h4⟩ := h
  simp only [updateStatus, GoodP]
  repeat' split
  all_goals refine ⟨?_, ?_, ?_, ?_⟩
  all_goals simp only []
  all_goals omega

theorem updatePhantom_good (s : GState) (h : GoodP s.player) :
    GoodP (updatePhantom s).player := by
  obtain ⟨h1, h2, h3, h4⟩ := h
  simp only [updatePhantom, GoodP]
  repeat' split
  all_goals refine ⟨?_, ?_, ?_, ?_⟩
  all_goals dsimp only
  all_goals omega

theorem moveEnter_good (destId : String) (s : GState) (h : GoodP s.player) :
    GoodP (moveEnter destId s).player := by
  have hX : GoodP ({ s with player := { s.player with room_id := destId, visited := addVisited s.player.visited destId, turns := s.player.turns + 1 } } : GState).player := by
    obtain ⟨h1, h2, h3, h4⟩ := h
    exact ⟨h1, h2, h3, h4⟩
  have h2 := updatePhantom_good _ (updateStatus_good _ hX)
  simp only [moveEnter]
  repeat' split
  all_goals
    obtain ⟨g1, g2, g3, g4⟩ := h2
    exact ⟨g1, g2, g3, g4⟩

theorem move_good (d : String) (s : GState) (h : GoodP s.player) :
    GoodP (move d s).player := by
  simp only [move]
  repeat' split
  all_goals first
    | exact h
    | exact moveEnter_good _ _ h

theorem length_erase_le_of (l : List Item) (a : Item) (h : l.length ≤ 5) :
    (l.erase a).length ≤ 5 :=
  le_trans (List.Sublist.length_le (List.erase_sublist _ _)) h

theorem takeM_good (t : String) (s : GState) (h : GoodP s.player) :
    GoodP (takeM t s).1.player := by
  obtain ⟨h1, h2, h3, h4⟩ := h
  simp only [takeM, GoodP]
  repeat' split
  all_goals refine ⟨?_, ?_, ?_, ?_⟩
  all_goals dsimp only
  all_goals try simp only [record_action_player, List.length_append, List.length_cons,
    List.length_nil] at *
  all_goals omega

theorem drop_good (t : String) (s : GState) (h : GoodP s.player) :
    GoodP (drop t s).player := by
  obtain ⟨h1, h2, h3, h4⟩ := h
  simp only [drop, GoodP]
  repeat' split
  all_goals refine ⟨?_, ?_, ?_, ?_⟩
  all_goals dsimp only
  all_goals simp only [record_action_player]
  all_goals first
    | omega
    | exact length_erase_le_of _ _ h4

theorem use_good (t : String) (s : GState) (h : GoodP s.player) :
    GoodP (use t s).player := by
  obtain ⟨h1, h2, h3, h4⟩ := h
  simp only [use, GoodP]
  repeat' split
  all_goals refine ⟨?_, ?_, ?_, ?_⟩
  all_goals dsimp only
  all_goals simp only [record_action_player]
  all_goals first
    | omega
    | exact length_erase_le_of _ _ h4

theorem unlockS_good (t : String) (stream : List String) (s : GState) (h : GoodP s.player) :
    GoodP (unlockS t stream s).1.player := by
  obtain ⟨h1, h2, h3, h4⟩ := h
  simp only [unlockS, GoodP]
  repeat' split
  all_goals refine ⟨?_, ?_, ?_, ?_⟩
  all_goals dsimp only
  all_goals try simp only [record_action_player] at *
  all_goals omega

theorem play_piano_good (t : String) (stream : List String) (s : GState) (h : GoodP s.player) :
    GoodP (play_piano t stream s).1.player := by
  obtain ⟨h1, h2, h3, h4⟩ := h
  simp only [play_piano, GoodP]
  repeat' split
  all_goals refine ⟨?_, ?_, ?_, ?_⟩
  all_goals dsimp only
  all_goals try simp only [record_action_player] at *
  all_goals omega

theorem flash_good (s : GState) (h : GoodP s.player) :
    GoodP (flash s).player := by
  obtain ⟨h1, h2, h3, h4⟩ := h
  simp only [flash, GoodP]
  repeat' split
  all_goals refine ⟨?_, ?_, ?_, ?_⟩
  all_goals dsimp only
  all_goals try simp only [record_action_player] at *
  all_goals omega

theorem hint_good (s : GState) (h : GoodP s.player) :
    GoodP (hint s).player := by
  obtain ⟨h1, h2, h3, h4⟩ := h
  simp only [hint, GoodP]
  refine ⟨?_, ?_, ?_, ?_⟩
  all_goals dsimp only
  all_goals try simp only [record_action_player] at *
  all_goals omega

theorem execCmd_goodP (c : Cmd) (s : GState) (h : GoodP s.player) :
    GoodP (execCmd c s).player := by
  cases c with
  | move d => exact move_good d s h
  | take t => exact takeM_good t s h
  | drop t => exact drop_good t s h
  | use t => exact use_good t s h
  | unlock t c => exact unlockS_good t [c] s h
  | play t n => exact play_piano_good t [n] s h
  | flash => exact flash_good s h
  | hint => exact hint_good s h
  | listen => exact h

theorem mem_of_getLast_opt {α : Type} {l : List α} {a : α} (h : l.getLast? = some a) :
    a ∈ l := by
  induction l with
  | nil => simp at h
  | cons x t ih =>
    cases t with
    | nil => simp_all
    | cons y u =>
      rw [List.getLast?_cons_cons] at h
      exact List.mem_cons_of_mem x (ih h)

theorem execCmd_goodS (c : Cmd) (s : GState) (h : GoodS s) : GoodS (execCmd c s) := by
  obtain ⟨hp, hh⟩ := h
  refine ⟨execCmd_goodP c s hp, ?_⟩
  intro sn hs
  rw [execCmd_hist] at hs
  simp only [record_action] at hs
  by_cases hc : 10 < (s.history ++ [snapshot s]).length
  · rw [if_pos hc] at hs
    rcases List.mem_append.1 (List.tail_subset _ hs) with h1 | h2
    · exact hh sn h1
    · simp only [List.mem_singleton] at h2
      subst h2
      exact hp
  · rw [if_neg hc] at hs
    rcases List.mem_append.1 hs with h1 | h2
    · exact hh sn h1
    · simp only [List.mem_singleton] at h2
      subst h2
      exact hp

theorem undo_goodS (s : GState) (h : GoodS s) : GoodS (undo s) := by
  obtain ⟨hp, hh⟩ := h
  unfold undo
  cases hl : s.history.getLast? with
  | none => exact ⟨hp, hh⟩
  | some prev =>
    refine ⟨?_, ?_⟩
    · simpa [restore_def] using hh prev (mem_of_getLast_opt hl)
    · intro sn hs
      simp only [restore_def] at hs
      exact hh sn (List.dropLast_subset _ hs)

theorem initGame_goodS (seed difficulty : String) :
    GoodS (initGame seed difficulty) := by
  refine ⟨⟨?_, ?_, ?_, ?_⟩, ?_⟩ <;> simp [initGame, GoodP]

theorem reach_goodS (seed difficulty : String) (s : GState)
    (h : Reach seed difficulty s) : GoodS s := by
  induction h with
  | init => exact initGame_goodS seed difficulty
  | cmd s c _ ih => exact execCmd_goodS c s ih
  | undoStep s _ ih => exact undo_goodS s ih

/-- C4 (counterexample): at the boundary `stun_timer = turns` — where
the claim says the stun expiry is greater than or equal to the turn
counter, so the tick must have no effect — the phantom still attacks:
the source guard is the strict `stun_timer > turns`. -/
theorem stun_boundary_counterexample :
    stunBoundarySt.phantom.stun_timer = stunBoundarySt.player.turns ∧
    stunBoundarySt.phantom.active = true ∧
    stunBoundarySt.phantom.room_id = stunBoundarySt.player.room_id ∧
    (updatePhantom stunBoundarySt).player.sanity ≠ stunBoundarySt.player.sanity := by
  refine ⟨rfl, rfl, rfl, ?_⟩
  have h1 : (updatePhantom stunBoundarySt).player.sanity = 85 := rfl
  have h2 : stunBoundarySt.player.sanity = 100 := rfl
  rw [h1, h2]
  decide

/-- C4 (amended): the phantom tick is a complete no-op exactly when the
stun expiry is STRICTLY greater than the current turn counter; at
equality the phantom acts normally. -/
theorem phantom_inert_when_stunned (s : GState)
    (h : s.player.turns < s.phantom.stun_timer) :
    updatePhantom s = s := by
  unfold updatePhantom
  rw [if_pos]
  exact h

theorem phantom_inert_when_stunned_witness :
    stunnedSt.player.turns < stunnedSt.phantom.stun_timer ∧
    updatePhantom stunnedSt = stunnedSt :=
  ⟨by decide, phantom_inert_when_stunned stunnedSt (by decide)⟩

/-- C5 (counterexample): on story difficulty the source deals
`int(15 * 0.5) = 7` damage, not `round(7.5) = 8` as the claim states. -/
theorem attack_damage_truncation_counterexample :
    storyAttackSt.player.difficulty = "story" ∧
    storyAttackSt.phantom.stun_timer ≤ storyAttackSt.player.turns ∧
    storyAttackSt.phantom.active = true ∧
    storyAttackSt.phantom.room_id = storyAttackSt.player.room_id ∧
    (updatePhantom storyAttackSt).player.sanity = storyAttackSt.player.sanity - 7 ∧
    round ((15 : ℚ) * (1 / 2)) = 8 ∧
    (updatePhantom storyAttackSt).player.sanity ≠
      storyAttackSt.player.sanity - round ((15 : ℚ) * (1 / 2)) := by
  have hr : round ((15 : ℚ) * (1 / 2)) = 8 := by norm_num [round_eq]
  have hv : (updatePhantom storyAttackSt).player.sanity = 93 := rfl
  have hs : storyAttackSt.player.sanity = 100 := rfl
  refine ⟨rfl, by decide, rfl, rfl, ?_, hr, ?_⟩
  · rw [hv, hs]; decide
  · rw [hv, hs, hr]; decide

/-- C5 (amended): whenever the phantom ticks while unstunned, active and
co-located with the player, the sanity damage is `int(15 * mult)` — the
float product truncated toward zero — i.e. 7 on story, 15 on normal and
22 on hard difficulty (the claim computes `round`, which gives 8 on
story). -/
theorem phantom_attack_damage (s : GState)
    (h1 : s.phantom.stun_timer ≤ s.player.turns)
    (h2 : s.phantom.active = true)
    (h3 : s.phantom.room_id = s.player.room_id) :
    (updatePhantom s).player.sanity =
      s.player.sanity - (scaled 15 s.player.difficulty : Nat) ∧
    scaled 15 "story" = 7 ∧ scaled 15 "normal" = 15 ∧ scaled 15 "hard" = 22 := by
  refine ⟨?_, by decide, by decide, by decide⟩
  unfold updatePhantom
  rw [if_neg (by omega)]
  simp only [h2, h3, Bool.not_true, Bool.and_false, Bool.false_and,
    Bool.false_eq_true, if_false, eq_self_iff_true, if_true]
  repeat' split
  all_goals rfl

theorem phantom_attack_damage_witness :
    storyAttackSt.phantom.stun_timer ≤ storyAttackSt.player.turns ∧
    storyAttackSt.phantom.active = true ∧
    storyAttackSt.phantom.room_id = storyAttackSt.player.room_id ∧
    ((updatePhantom storyAttackSt).player.sanity =
      storyAttackSt.player.sanity - (scaled 15 storyAttackSt.player.difficulty : Nat) ∧
     scaled 15 "story" = 7 ∧ scaled 15 "normal" = 15 ∧ scaled 15 "hard" = 22) :=
  ⟨by decide, rfl, rfl,
    phantom_attack_damage storyAttackSt (by decide) rfl rfl⟩

/-- C2 (counterexample): sanity decrements are not clamped at 0.  From a
fresh hard-difficulty session, fifteen consecutive `hint` commands leave
sanity at -5, outside [0,100] (hints cost `int(5 * 1.5) = 7` each). -/
theorem sanity_leaves_interval_counterexample :
    (applyOps (List.replicate 15 Cmd.hint) (initGame "9" "hard")).player.sanity = -5 ∧
    (applyOps (List.replicate 15 Cmd.hint) (initGame "9" "hard")).player.sanity < 0 := by
  have h : (applyOps (List.replicate 15 Cmd.hint) (initGame "9" "hard")).player.sanity = -5 := rfl
  exact ⟨h, by rw [h]; decide⟩

/-- C2 (amended): over every reachable state, the battery does stay
clamped to [0,100] and sanity never exceeds 100; but downward sanity
adjustments do not saturate at 0, so sanity can leave the interval below
(see the counterexample). -/
theorem battery_clamped_sanity_bounded (seed difficulty : String) (s : GState)
    (h : Reach seed difficulty s) :
    0 ≤ s.player.battery ∧ s.player.battery ≤ 100 ∧ s.player.sanity ≤ 100 := by
  obtain ⟨⟨h1, h2, h3, _⟩, _⟩ := reach_goodS seed difficulty s h
  exact ⟨h1, h2, h3⟩

theorem battery_clamped_sanity_bounded_witness :
    0 ≤ (initGame "1" "normal").player.battery ∧
    (initGame "1" "normal").player.battery ≤ 100 ∧
    (initGame "1" "normal").player.sanity ≤ 100 :=
  battery_clamped_sanity_bounded "1" "normal" _ Reach.init

/-- C7: the inventory never exceeds 5 items on any reachable state; and
whenever a takeable item matches the (stripped) argument while the
inventory already holds 5 items, `take` reports the inventory-full
outcome and leaves both the inventory and the room item list (indeed the
whole room table) unchanged. -/
theorem inventory_capacity :
    (∀ seed difficulty s, Reach seed difficulty s → s.player.inventory.length ≤ 5) ∧
    (∀ (target : String) (s : GState) (item : Item),
      (curRoom s).items.find? (fun i =>
        pyLower i.name = pyReplace target "up " "" || i.id = pyReplace target "up " "") = some item →
      item.takeable = true →
      5 ≤ s.player.inventory.length →
      (takeM target s).1.player.inventory = s.player.inventory ∧
      (takeM target s).1.rooms = s.rooms ∧
      (takeM target s).2 = TakeMsg.invFull) := by
  constructor
  · intro seed difficulty s h
    exact (reach_goodS seed difficulty s h).1.2.2.2
  · intro target s item hfind htk hlen
    have hfind' : (curRoom (record_action s)).items.find? (fun i =>
        pyLower i.name = pyReplace target "up " "" || i.id = pyReplace target "up " "") = some item := hfind
    simp only [takeM, hfind']
    rw [htk]
    simp only [Bool.not_true, Bool.false_eq_true, if_false]
    rw [if_pos (by simpa [record_action_player] using hlen)]
    exact ⟨rfl, rfl, rfl⟩

theorem inventory_capacity_witness :
    (initGame "1" "normal").player.inventory.length ≤ 5 ∧
    ((takeM "iron key" fullInvSt).1.player.inventory = fullInvSt.player.inventory ∧
     (takeM "iron key" fullInvSt).1.rooms = fullInvSt.rooms ∧
     (takeM "iron key" fullInvSt).2 = TakeMsg.invFull) :=
  ⟨inventory_capacity.1 "1" "normal" _ Reach.init,
   inventory_capacity.2 "iron key" fullInvSt
     { id := "gate_key", name := "Iron Key", desc := "Rusty but solid." }
     rfl rfl (by decide)⟩

theorem undo_restores_mutable_state_witness :
    (libSt.rooms.map Prod.fst).Nodup ∧
    mutOf (undo (execCmd (Cmd.play "piano" "DAD") libSt)) = mutOf libSt :=
  ⟨by decide, undo_restores_mutable_state (Cmd.play "piano" "DAD") libSt (by decide)⟩

/-- C9 (counterexample): `listen` is not history-neutral — it pushes a
snapshot onto the undo stack before printing. -/
theorem listen_pushes_history_counterexample :
    (listen (initGame "1" "normal")).history.length = 1 ∧
    (initGame "1" "normal").history.length = 0 :=
  ⟨rfl, rfl⟩

/-- C9 (amended): `listen` classifies phantom proximity into the three
tiers and leaves player, phantom, rooms, the session fields and the
random stream unchanged — but it does push a pre-command snapshot onto
the undo history (evicting the oldest entry at capacity 10). -/
theorem listen_frame (s : GState) :
    (listen s).player = s.player ∧ (listen s).phantom = s.phantom ∧
    (listen s).rooms = s.rooms ∧ (listen s).seed = s.seed ∧
    (listen s).safe_code = s.safe_code ∧ (listen s).piano_solved = s.piano_solved ∧
    (listen s).rng = s.rng ∧
    (listen s).history =
      (if 10 < (s.history ++ [snapshot s]).length then (s.history ++ [snapshot s]).tail
       else s.history ++ [snapshot s]) ∧
    (listenTier s = Tier.here ↔ s.phantom.room_id = (curRoom s).id) ∧
    (listenTier s = Tier.near ↔ s.phantom.room_id ≠ (curRoom s).id ∧
      ((curRoom s).exits.map (fun e => e.2)).contains s.phantom.room_id = true) ∧
    (listenTier s = Tier.far ↔ s.phantom.room_id ≠ (curRoom s).id ∧
      ((curRoom s).exits.map (fun e => e.2)).contains s.phantom.room_id = false) := by
  refine ⟨rfl, rfl, rfl, rfl, rfl, rfl, rfl, rfl, ?_, ?_, ?_⟩ <;>
    · simp only [listenTier]
      split_ifs with h1 h2 <;> simp_all

/-- C10 (counterexample): loading a malformed slot is a crash, not a
recoverable failure, and the restore is not all-or-nothing: a parseable
blob missing its safe-code key raises after the seed assignment already
happened, leaving the state partially mutated. -/
theorem load_malformed_crash_counterexample :
    (load_state (some (Blob.json badRaw)) (initGame "1" "normal")).2 = false ∧
    (load_state (some (Blob.json badRaw)) (initGame "1" "normal")).1.seed ≠
      (initGame "1" "normal").seed ∧
    (load_state (some Blob.notJson) (initGame "1" "normal")).2 = false := by
  refine ⟨rfl, ?_, rfl⟩
  have h1 : (load_state (some (Blob.json badRaw)) (initGame "1" "normal")).1.seed =
      "tampered" := rfl
  have h2 : (initGame "1" "normal").seed = "1" := rfl
  rw [h1, h2]
  decide

/-- C10 (amended): an absent slot is silently skipped with the state
unchanged and no error; an unparseable slot raises an uncaught exception
with the state unchanged; a well-formed snapshot blob restores the full
mutable state and succeeds.  (Partially-formed blobs can mutate a prefix
of the fields before raising — see the counterexample.) -/
theorem load_state_characterization (s : GState) :
    load_state none s = (s, true) ∧
    load_state (some Blob.notJson) s = (s, false) ∧
    (∀ sn : Snap, load_state (some (Blob.json sn.toRaw)) s =
      ({ s with
          seed := sn.seed
          safe_code := sn.safe_code
          piano_solved := sn.piano_solved
          player := sn.player
          phantom := sn.phantom
          rooms := restoreRooms s.rooms sn.rooms }, true)) :=
  ⟨rfl, rfl, fun _ => rfl⟩

/-- C8: inspecting the note once appends its lore entry; inspecting it a
second time appends the SAME entry again — the dedup guard compares the
raw hidden text against journal entries stored as `"name: text"`, so it
never fires and the journal accumulates duplicates. -/
theorem journal_duplicate_on_reinspect :
    (look "note" kitchenSt).player.journal.length = 1 ∧
    (look "note" (look "note" kitchenSt)).player.journal.length = 2 ∧
    (look "note" (look "note" kitchenSt)).player.journal.get? 0 =
      (look "note" (look "note" kitchenSt)).player.journal.get? 1 ∧
    ((look "note" (look "note" kitchenSt)).player.journal.get? 0).isSome = true :=
  ⟨rfl, rfl, rfl, rfl⟩

/-- C6: the dispatch block of the loop.  A blank line dispatches nothing
and mutates nothing.  For a non-blank line whose leading token is not an
exact table key: when the best fuzzy score reaches confidence 80 the
corresponding handler runs (the substituted key is surfaced in the
dispatch tag); below 80 nothing runs, the state is untouched and the
unknown-command outcome is reported.  Quantified over any scorer, which
models the external fuzzy-matching library. -/
theorem fuzzy_dispatch_threshold (scorer : String → List String → String × Nat) :
    (∀ line stream st, pyLower (pyTrim line) = "" →
        dispatchExec scorer line stream st = (st, stream, DispatchTag.noInput)) ∧
    (∀ line stream st cmd arg, parseLine line = some (cmd, arg) →
        keyList.contains cmd = false →
          (80 ≤ (scorer cmd keyList).2 →
            dispatchExec scorer line stream st =
              ((execKey (scorer cmd keyList).1 arg stream st).1,
               (execKey (scorer cmd keyList).1 arg stream st).2,
               DispatchTag.fuzzy (scorer cmd keyList).1)) ∧
          ((scorer cmd keyList).2 < 80 →
            dispatchExec scorer line stream st = (st, stream, DispatchTag.unknown))) := by
  constructor
  · intro line stream st h
    simp [dispatchExec, parseLine, h]
  · intro line stream st cmd arg hp hm
    constructor
    · intro hs
      simp only [dispatchExec, hp, hm, Bool.false_eq_true, if_false]
      rw [if_pos hs]
    · intro hs
      simp only [dispatchExec, hp, hm, Bool.false_eq_true, if_false]
      rw [if_neg (by omega)]

theorem fuzzy_dispatch_threshold_witness :
    (dispatchExec (fun _ _ => ("go", 85)) "gi north" [] dispatchSt =
      ((execKey "go" "north" [] dispatchSt).1,
       (execKey "go" "north" [] dispatchSt).2,
       DispatchTag.fuzzy "go")) ∧
    (dispatchExec (fun _ _ => ("go", 60)) "gi north" [] dispatchSt =
      (dispatchSt, [], DispatchTag.unknown)) ∧
    (dispatchExec (fun _ _ => ("go", 85)) "   " [] dispatchSt =
      (dispatchSt, [], DispatchTag.noInput)) :=
  ⟨((fuzzy_dispatch_threshold (fun _ _ => ("go", 85))).2 "gi north" [] dispatchSt
      "gi" "north" rfl (by decide)).1 (by decide),
   ((fuzzy_dispatch_threshold (fun _ _ => ("go", 60))).2 "gi north" [] dispatchSt
      "gi" "north" rfl (by decide)).2 (by decide),
   (fuzzy_dispatch_threshold (fun _ _ => ("go", 85))).1 "   " [] dispatchSt rfl⟩

/-- The loop semantics is a functional relation: from one session state
and one remaining script, the trace and final state are uniquely
determined — the rules have mutually exclusive guards and every
premise is an equation. -/
theorem runR_deterministic (scorer : String → List String → String × Nat) :
    ∀ (st : SessionSt) (script tr1 : List String) (f1 : SessionSt),
      RunR scorer st script tr1 f1 →
      ∀ tr2 f2, RunR scorer st script tr2 f2 → tr1 = tr2 ∧ f1 = f2 := by
  intro st script tr1 f1 h1
  induction h1 with
  | crash st script hc =>
    intro tr2 f2 h2
    cases h2 <;> simp_all
  | halt st script hc hg =>
    intro tr2 f2 h2
    cases h2 <;> simp_all
  | escape st script hc hg hr =>
    intro tr2 f2 h2
    cases h2 <;> simp_all
  | eof st hc hg hr =>
    intro tr2 f2 h2
    cases h2 <;> simp_all
  | step st line rest st2 rest2 tag st3 tr fin hc hg hr hd hs3 _ ih =>
    intro tr2 f2 h2
    cases h2 with
    | crash _ _ hc' => simp_all
    | halt _ _ hc' hg' => simp_all
    | escape _ _ hc' hg' hr' => simp_all
    | step _ _ _ st2' rest2' tag' st3' tr' fin' hc' hg' hr' hd' hs3' hrec' =>
      rw [hd] at hd'
      injection hd' with e1 erest
      injection erest with e2 e3
      subst e1
      subst e2
      subst e3
      subst hs3
      subst hs3'
      obtain ⟨ht, hf⟩ := ih _ _ hrec'
      exact ⟨by rw [ht], hf⟩

/-- C3: two runs of the loop from the same seed (and difficulty) on the
same input script produce the identical phantom room-id trace, and their
final states carry the identical generated safe code — (seed, script)
determines the outcome; the only random stream is the session-owned one
seeded at start, and the safe code is drawn from it at session start. -/
theorem run_determinism (scorer : String → List String → String × Nat)
    (seed difficulty : String) (script tr1 tr2 : List String) (f1 f2 : SessionSt)
    (h1 : RunR scorer ⟨initGame seed difficulty, none, false⟩ script tr1 f1)
    (h2 : RunR scorer ⟨initGame seed difficulty, none, false⟩ script tr2 f2) :
    tr1 = tr2 ∧ f1.g.safe_code = f2.g.safe_code := by
  obtain ⟨ht, hf⟩ := runR_deterministic scorer _ _ _ _ h1 _ _ h2
  exact ⟨ht, by rw [hf]⟩

theorem run_determinism_witness :
    ([] : List String) = ([] : List String) ∧
    (⟨renderTick (initGame "1" "normal"), none, false⟩ : SessionSt).g.safe_code =
      (⟨renderTick (initGame "1" "normal"), none, false⟩ : SessionSt).g.safe_code := by
  have h : RunR (fun _ _ => ("go", 0)) ⟨initGame "1" "normal", none, false⟩ [] []
      ⟨renderTick (initGame "1" "normal"), none, false⟩ :=
    RunR.eof _ rfl rfl (by decide)
  exact run_determinism (fun _ _ => ("go", 0)) "1" "normal" [] [] [] _ _ h h
